import Mathlib

/-
Verification development for the ros2_control hardware-interface core.

The sources available are the component-interface headers
(hardware_interface/actuator_interface.hpp, hardware_interface/system.hpp)
and the test suites (test_resource_manager.cpp, test_generic_system.cpp,
test_component_interfaces.cpp).  The ResourceManager, the hardware-component
wrappers, the mock generic-system driver and the joint-limit enforcement
stage are exercised by those tests but their implementation files are not
part of the source tree; they are modelled here from the specification,
with the behaviour asserted by the repository tests taken as authoritative
whenever the two disagree.
-/

namespace Ros2Control

/-- Lifecycle states of a hardware component, from
lifecycle_state_names.hpp and the state machine described in
actuator_interface.hpp: UNCONFIGURED, INACTIVE, ACTIVE, FINALIZED. -/
inductive LifecycleState where
  | unconfigured
  | inactive
  | active
  | finalized
deriving DecidableEq, Repr

/-- Return codes of read and write, from
hardware_interface_return_values.hpp: OK, ERROR, DEACTIVATE. -/
inductive ReturnType where
  | ok
  | error
  | deactivate
deriving DecidableEq, Repr

/-- Callback results of lifecycle callbacks, from
rclcpp_lifecycle (CallbackReturn): SUCCESS, FAILURE, ERROR. -/
inductive CallbackReturn where
  | success
  | failure
  | error
deriving DecidableEq, Repr

/-- Kind of a hardware component: actuator, sensor or system
(HardwareInfo.type). -/
inductive ComponentKind where
  | actuator
  | sensor
  | system
deriving DecidableEq, Repr

/-- Canonical interface identity: owner name (joint, sensor or gpio)
paired with the interface name, as in InterfaceDescription
(the string key is owner ++ slash ++ interface name). -/
abbrev InterfaceKey := String × String

/-- Movement-class interface names as listed in the header comment of
actuator_interface.hpp: HW_IF_POSITION, HW_IF_VELOCITY,
HW_IF_ACCELERATION and HW_IF_EFFORT. -/
def movement_interface_names : List String :=
  ["position", "velocity", "acceleration", "effort"]

/-- Decides whether an interface key is a movement-class command
interface. -/
def is_movement_interface (key : InterfaceKey) : Bool :=
  decide (key.2 ∈ movement_interface_names)

/-- Modelled from the spec: driver-side behaviour of one hardware
component (the concrete drivers behind the ResourceManager tests are not
in the source tree).  read and write return a fixed code per cycle and
on_error is consulted on its n-th invocation; the wrapper recovers the
component to UNCONFIGURED when on_error succeeds and finalizes it
otherwise (spec section 4.3 return semantics). -/
structure Driver where
  readResult : ReturnType
  writeResult : ReturnType
  onError : Nat → CallbackReturn

/-- Modelled from the spec: the per-component state kept by the
hardware-component wrapper (hardware component wrapper sources are not in
the source tree): immutable identity and interface keys, current
lifecycle state, driver and the number of on_error invocations so far. -/
structure Component where
  name : String
  kind : ComponentKind
  group : Option String
  stateKeys : List InterfaceKey
  commandKeys : List InterfaceKey
  lifecycleState : LifecycleState
  driver : Driver
  errorCount : Nat

/-- Modelled from the spec: the ResourceManager registry
(resource_manager.cpp is not in the source tree): components in load
order, the set of claimed command keys, and whether a successful
load_and_initialize_components has happened. -/
structure ResourceManager where
  components : List Component
  claimed : List InterfaceKey
  initialized : Bool

/-- Availability of handles by owner lifecycle state: a handle is
available when its owning component is INACTIVE or ACTIVE.  The
repository tests assert this for command interfaces of every class,
movement interfaces included (test_resource_manager.cpp lines 976-1008
and 1133-1168); the extra movement-interface restriction described in the
header of actuator_interface.hpp is an explicit todo there and is not
implemented. -/
def isAvailableState : LifecycleState → Bool
  | LifecycleState.inactive => true
  | LifecycleState.active => true
  | _ => false

/-- Modelled from the spec: owning component of a command interface key,
searched in load order. -/
def cmdOwner (rm : ResourceManager) (key : InterfaceKey) : Option Component :=
  rm.components.find? (fun c => decide (key ∈ c.commandKeys))

/-- Modelled from the spec: owning component of a state interface key,
searched in load order. -/
def stOwner (rm : ResourceManager) (key : InterfaceKey) : Option Component :=
  rm.components.find? (fun c => decide (key ∈ c.stateKeys))

/-- Modelled from the spec: command_interface_exists. -/
def command_interface_exists (rm : ResourceManager) (key : InterfaceKey) : Bool :=
  (cmdOwner rm key).isSome

/-- Modelled from the spec: state_interface_exists. -/
def state_interface_exists (rm : ResourceManager) (key : InterfaceKey) : Bool :=
  (stOwner rm key).isSome

/-- Modelled from the spec: command_interface_is_available - the key is
registered and its owning component is INACTIVE or ACTIVE. -/
def command_interface_is_available (rm : ResourceManager) (key : InterfaceKey) : Bool :=
  match cmdOwner rm key with
  | some c => isAvailableState c.lifecycleState
  | none => false

/-- Modelled from the spec: state_interface_is_available - the key is
registered and its owning component is INACTIVE or ACTIVE. -/
def state_interface_is_available (rm : ResourceManager) (key : InterfaceKey) : Bool :=
  match stOwner rm key with
  | some c => isAvailableState c.lifecycleState
  | none => false

/-- Modelled from the spec: command_interface_is_claimed. -/
def command_interface_is_claimed (rm : ResourceManager) (key : InterfaceKey) : Bool :=
  decide (key ∈ rm.claimed)

/-- Modelled from the spec: update applied to one component by
set_component_state - a component named n is driven to the target state
through the lifecycle transition table of spec section 4.5; FINALIZED is
terminal, so a finalized component is left unchanged. -/
def updateLifecycle (n : String) (target : LifecycleState) (c : Component) : Component :=
  if c.name = n then
    (if c.lifecycleState = LifecycleState.finalized then c
     else { c with lifecycleState := target })
  else c

/-- Modelled from the spec: set_component_state drives the named
component to the target lifecycle state. -/
def set_component_state (rm : ResourceManager) (n : String) (target : LifecycleState) :
    ResourceManager :=
  { rm with components := rm.components.map (updateLifecycle n target) }

/-- Lifecycle state of the named component, as reported by
get_components_status. -/
def componentState (rm : ResourceManager) (n : String) : Option LifecycleState :=
  (rm.components.find? (fun c => decide (c.name = n))).map Component.lifecycleState

/-- Modelled from the spec: claim_command_interface - exclusive; fails
(the real manager throws) when the interface is missing, unavailable or
already claimed; on success the key is recorded as claimed. -/
def claim_command_interface (rm : ResourceManager) (key : InterfaceKey) :
    Option ResourceManager :=
  if command_interface_exists rm key &&
     command_interface_is_available rm key &&
     !command_interface_is_claimed rm key then
    some { rm with claimed := key :: rm.claimed }
  else none

/-- Modelled from the spec: destruction of a LoanedCommandInterface
releases the claim on its key. -/
def release_command_interface (rm : ResourceManager) (key : InterfaceKey) :
    ResourceManager :=
  { rm with claimed := rm.claimed.erase key }

/-- Modelled from the spec: claim_state_interface - shared lends, granted
whenever the state interface is available, without any claim record. -/
def claim_state_interface (rm : ResourceManager) (key : InterfaceKey) : Option Unit :=
  if state_interface_is_available rm key then some () else none

/-- Return code produced by a component in one phase of a cycle: read
consults the driver read result, write the driver write result. -/
def Component.cycleReturn (c : Component) (isRead : Bool) : ReturnType :=
  if isRead then c.driver.readResult else c.driver.writeResult

/-- Modelled from the spec: a component takes part in the read loop when
it is INACTIVE or ACTIVE (state reads continue across deactivation). -/
def readEligible (c : Component) : Bool :=
  isAvailableState c.lifecycleState

/-- Modelled from the spec: a component takes part in the write loop only
when it is ACTIVE. -/
def writeEligible (c : Component) : Bool :=
  decide (c.lifecycleState = LifecycleState.active)

/-- A component errors in the given phase when it is eligible and its
driver returns ERROR there. -/
def Component.isErrored (c : Component) (isRead : Bool) : Bool :=
  (if isRead then readEligible c else writeEligible c) &&
  decide (c.cycleReturn isRead = ReturnType.error)

/-- Failure coupling: component a drags component b into the failed set
when b is a itself or both carry the same nonempty group name
(HardwareInfo.group). -/
def sameFailureGroup (a b : Component) : Bool :=
  decide (a.name = b.name) || (a.group.isSome && decide (a.group = b.group))

/-- Membership in the failed set of a cycle: the component is not
FINALIZED and is group-coupled to some errored component. -/
def Component.inFailedSet (c : Component) (errored : List Component) : Bool :=
  !decide (c.lifecycleState = LifecycleState.finalized) &&
  errored.any (fun a => sameFailureGroup a c)

/-- A write-phase DEACTIVATE request: only write may request it and only
an ACTIVE component can issue one. -/
def Component.isDeactivateRequested (c : Component) (isRead : Bool) : Bool :=
  !isRead && writeEligible c &&
  decide (c.cycleReturn isRead = ReturnType.deactivate)

/-- Modelled from the spec: the wrapper invokes on_error on a failed
component; on SUCCESS the component recovers to UNCONFIGURED, otherwise
it transitions to FINALIZED (spec sections 4.3 and 7). -/
def Component.applyOnError (c : Component) : Component :=
  { c with
    errorCount := c.errorCount + 1,
    lifecycleState :=
      if c.driver.onError c.errorCount = CallbackReturn.success then
        LifecycleState.unconfigured
      else LifecycleState.finalized }

/-- Per-component state update of one read or write cycle: failed
components run on_error, deactivate-requesting components drop to
INACTIVE, all others are untouched. -/
def cycleUpdate (isRead : Bool) (errored : List Component) (c : Component) : Component :=
  if c.inFailedSet errored then c.applyOnError
  else if c.isDeactivateRequested isRead then
    { c with lifecycleState := LifecycleState.inactive }
  else c

/-- Outcome of one ResourceManager read or write call: aggregated return
code, failed hardware names, the components on which on_error ran, and
the manager afterwards. -/
structure CycleOutcome where
  result : ReturnType
  failedNames : List String
  onErrorInvoked : List String
  rmAfter : ResourceManager

/-- Components whose driver returned ERROR in this phase. -/
def erroredList (rm : ResourceManager) (isRead : Bool) : List Component :=
  rm.components.filter (fun c => c.isErrored isRead)

/-- Failed set of the cycle: the errored components together with their
non-FINALIZED group mates. -/
def failedList (rm : ResourceManager) (isRead : Bool) : List Component :=
  rm.components.filter (fun c => c.inFailedSet (erroredList rm isRead))

/-- Components that requested DEACTIVATE (and did not also fail). -/
def deactList (rm : ResourceManager) (isRead : Bool) : List Component :=
  rm.components.filter
    (fun c => c.isDeactivateRequested isRead && !c.inFailedSet (erroredList rm isRead))

/-- Modelled from the spec: the read/write dispatch loop of the
ResourceManager (spec section 4.6 dispatch algorithm): every eligible
component runs, ERROR expands to the failure group and runs on_error,
DEACTIVATE (write only) drops the requester to INACTIVE, and the
aggregated code is ERROR over DEACTIVATE over OK.  Names of deactivated
components are also reported in the failed list, as asserted by
check_write_deactivate in test_resource_manager.cpp. -/
def runCycle (rm : ResourceManager) (isRead : Bool) : CycleOutcome :=
  { result :=
      if (erroredList rm isRead).isEmpty then
        (if (deactList rm isRead).isEmpty then ReturnType.ok else ReturnType.deactivate)
      else ReturnType.error,
    failedNames :=
      (failedList rm isRead).map Component.name ++
      (deactList rm isRead).map Component.name,
    onErrorInvoked := (failedList rm isRead).map Component.name,
    rmAfter :=
      { rm with components := rm.components.map (cycleUpdate isRead (erroredList rm isRead)) } }

/-- Modelled from the spec: ResourceManager.read. -/
def rmRead (rm : ResourceManager) : CycleOutcome := runCycle rm true

/-- Modelled from the spec: ResourceManager.write. -/
def rmWrite (rm : ResourceManager) : CycleOutcome := runCycle rm false

/-- Driver used by the ResourceManager test hardware: read and write
succeed and on_error always recovers (check_read_or_write_failure in
test_resource_manager.cpp re-activates the component after every
failure). -/
def okDriver : Driver :=
  { readResult := ReturnType.ok,
    writeResult := ReturnType.ok,
    onError := fun _ => CallbackReturn.success }

/-- Driver whose read fails every cycle while on_error always recovers,
matching the TestActuator behaviour once the failure value is written
(test_resource_manager.cpp check_read_or_write_failure). -/
def readFailDriver : Driver :=
  { readResult := ReturnType.error,
    writeResult := ReturnType.ok,
    onError := fun _ => CallbackReturn.success }

/-- Driver whose read fails and whose on_error succeeds only on its
first invocation, matching test_components DummyActuator
(test_component_interfaces.cpp dummy_actuator_read_error_behavior). -/
def dummyRecoverOnceDriver : Driver :=
  { readResult := ReturnType.error,
    writeResult := ReturnType.ok,
    onError := fun k => if k = 0 then CallbackReturn.success else CallbackReturn.error }

/-- Driver whose write requests DEACTIVATE, matching the TestActuator
behaviour once the deactivate value is written
(test_resource_manager.cpp check_write_deactivate). -/
def writeDeactivateDriver : Driver :=
  { readResult := ReturnType.ok,
    writeResult := ReturnType.deactivate,
    onError := fun _ => CallbackReturn.success }

/-- The test actuator of the minimal robot description: one joint with
state interfaces position and velocity and command interfaces position
and max_velocity, taken ACTIVE. -/
def testActuator : Component :=
  { name := "TestActuator",
    kind := ComponentKind.actuator,
    group := none,
    stateKeys := [("joint1", "position"), ("joint1", "velocity")],
    commandKeys := [("joint1", "position"), ("joint1", "max_velocity")],
    lifecycleState := LifecycleState.active,
    driver := okDriver,
    errorCount := 0 }

/-- The test system of the minimal robot description: joints 2 and 3
with velocity and acceleration command interfaces, taken ACTIVE. -/
def testSystem : Component :=
  { name := "TestSystem",
    kind := ComponentKind.system,
    group := none,
    stateKeys := [("joint2", "position"), ("joint2", "velocity"),
                  ("joint2", "acceleration"), ("joint3", "position"),
                  ("joint3", "velocity"), ("joint3", "acceleration")],
    commandKeys := [("joint2", "velocity"), ("joint2", "max_acceleration"),
                    ("joint3", "velocity"), ("configuration", "max_tcp_jerk")],
    lifecycleState := LifecycleState.active,
    driver := okDriver,
    errorCount := 0 }

/-- Minimal-robot ResourceManager with actuator and system ACTIVE. -/
def rmMinimalActive : ResourceManager :=
  { components := [testActuator, testSystem], claimed := [], initialized := true }

/-- Minimal-robot ResourceManager whose actuator read errors with an
always-recovering on_error. -/
def rmReadFailure : ResourceManager :=
  { components := [{ testActuator with driver := readFailDriver }, testSystem],
    claimed := [], initialized := true }

/-- Minimal-robot ResourceManager whose actuator write requests
DEACTIVATE. -/
def rmWriteDeactivate : ResourceManager :=
  { components := [{ testActuator with driver := writeDeactivateDriver }, testSystem],
    claimed := [], initialized := true }

/-- A single-component manager whose actuator behaves like the
DummyActuator of test_component_interfaces.cpp: every read errors and
on_error succeeds only on its first invocation. -/
def rmDummyActuator : ResourceManager :=
  { components := [{ testActuator with driver := dummyRecoverOnceDriver }],
    claimed := [], initialized := true }

/-- Mock generic-system components of the error-group test: two 1-joint
systems whose first member read-errors, with a configurable group. -/
def groupComponent (n : String) (g : Option String) (joint : String) (d : Driver) :
    Component :=
  { name := n,
    kind := ComponentKind.system,
    group := g,
    stateKeys := [(joint, "position"), (joint, "velocity")],
    commandKeys := [(joint, "position"), (joint, "velocity")],
    lifecycleState := LifecycleState.active,
    driver := d,
    errorCount := 0 }

/-- Error-group scenario with both components in the same hardware
group, the first one read-erroring
(generic_system_2dof_error_propagation_same_group). -/
def rmSameGroup : ResourceManager :=
  { components :=
      [groupComponent "MockHardwareSystem1" (some "Hardware Group") "joint1" readFailDriver,
       groupComponent "MockHardwareSystem2" (some "Hardware Group") "joint2" okDriver],
    claimed := [], initialized := true }

/-- Error-group scenario with the two components in different hardware
groups (generic_system_2dof_error_propagation_different_group). -/
def rmDiffGroup : ResourceManager :=
  { components :=
      [groupComponent "MockHardwareSystem1" (some "Hardware Group 1") "joint1" readFailDriver,
       groupComponent "MockHardwareSystem2" (some "Hardware Group 2") "joint2" okDriver],
    claimed := [], initialized := true }

/-- Modelled from the spec: one parsed HardwareInfo entry as consumed by
load_and_initialize_components, reduced to the facts the loader checks:
whether the plugin can be found, whether init succeeds, and whether the
exported interfaces match the description
(resource_manager.cpp is not in the source tree). -/
structure ComponentConfig where
  name : String
  kind : ComponentKind
  group : Option String
  pluginKnown : Bool
  initOk : Bool
  exportsMatch : Bool
  stateKeys : List InterfaceKey
  commandKeys : List InterfaceKey
  driver : Driver

/-- One configuration loads cleanly when its plugin exists, init
succeeds and every described interface is exported exactly once. -/
def configOk (cfg : ComponentConfig) : Bool :=
  cfg.pluginKnown && cfg.initOk && cfg.exportsMatch

/-- A configuration list is valid when every entry loads cleanly and no
two entries share a component name. -/
def configsValid (cfgs : List ComponentConfig) : Bool :=
  cfgs.all configOk && decide ((cfgs.map ComponentConfig.name).Nodup)

/-- Component created from a valid configuration: registered in
UNCONFIGURED with its interface keys. -/
def toComponent (cfg : ComponentConfig) : Component :=
  { name := cfg.name,
    kind := cfg.kind,
    group := cfg.group,
    stateKeys := cfg.stateKeys,
    commandKeys := cfg.commandKeys,
    lifecycleState := LifecycleState.unconfigured,
    driver := cfg.driver,
    errorCount := 0 }

/-- A ResourceManager before any components were loaded. -/
def empty_resource_manager : ResourceManager :=
  { components := [], claimed := [], initialized := false }

/-- Modelled from the spec: load_and_initialize_components - constructs
and registers a wrapper per HardwareInfo when everything validates; on
any failure (unknown plugin, duplicate names, init error,
description/export mismatch) nothing is registered and the manager is
left untouched for that call. -/
def load_and_initialize_components (rm : ResourceManager) (cfgs : List ComponentConfig) :
    Bool × ResourceManager :=
  if configsValid cfgs then
    (true, { components := rm.components ++ cfgs.map toComponent,
             claimed := rm.claimed, initialized := true })
  else (false, rm)

/-- Modelled from the spec: are_components_initialized. -/
def are_components_initialized (rm : ResourceManager) : Bool :=
  rm.initialized

/-- Number of loaded components of one kind (actuator_components_size,
sensor_components_size, system_components_size). -/
def components_size_of_kind (rm : ResourceManager) (k : ComponentKind) : Nat :=
  (rm.components.filter (fun c => decide (c.kind = k))).length

/-- Valid configuration of the test actuator, used to build failing
loads out of valid parts. -/
def actuatorConfig : ComponentConfig :=
  { name := "TestActuator",
    kind := ComponentKind.actuator,
    group := none,
    pluginKnown := true,
    initOk := true,
    exportsMatch := true,
    stateKeys := [("joint1", "position"), ("joint1", "velocity")],
    commandKeys := [("joint1", "position"), ("joint1", "max_velocity")],
    driver := okDriver }

/-- A load with two components of the same name, as in
minimal_robot_duplicated_component
(expect_load_and_initialize_to_fail_when_there_are_dupplicate_of_hw_comp). -/
def duplicatedConfigs : List ComponentConfig :=
  [actuatorConfig, actuatorConfig]

/-- One interface description of the mock generic system: owner (joint,
sensor or gpio name), interface name, and the optional initial value of
the description (none models an absent initial value, i.e. NaN for the
raw handle). -/
structure IfaceDescr where
  owner : String
  iface : String
  initialValue : Option ℚ

/-- Modelled from the spec: the mock (generic system) driver state
(mock_components/generic_system.cpp is not in the source tree): the
following offset, the optional custom state interface receiving the
offset, and the command and state handle values keyed by interface.
Handle values are Option rationals, none standing for NaN. -/
structure MockSystem where
  offset : ℚ
  customIface : Option String
  commands : List (InterfaceKey × Option ℚ)
  states : List (InterfaceKey × Option ℚ)

/-- Modelled from the spec: handle creation on configure.  Command
handles start at the declared initial value and NaN otherwise; standard
joint state handles start at the declared initial value and 0 otherwise;
non-joint (sensor and gpio) state handles start at the declared initial
value and NaN otherwise, as asserted by
valid_urdf_ros2_control_system_robot_with_gpio in
test_generic_system.cpp. -/
def configureMockSystem (offset : ℚ) (customIface : Option String)
    (cmdDescrs jointStateDescrs otherStateDescrs : List IfaceDescr) : MockSystem :=
  { offset := offset,
    customIface := customIface,
    commands := cmdDescrs.map (fun d => ((d.owner, d.iface), d.initialValue)),
    states :=
      jointStateDescrs.map (fun d => ((d.owner, d.iface), some (d.initialValue.getD 0)))
      ++ otherStateDescrs.map (fun d => ((d.owner, d.iface), d.initialValue)) }

/-- Current value of a command handle of the mock system (outer none:
no such handle; inner none: NaN). -/
def mockLookupCommand (m : MockSystem) (o i : String) : Option (Option ℚ) :=
  (m.commands.find? (fun e => decide (e.1 = (o, i)))).map Prod.snd

/-- Current value of a state handle of the mock system. -/
def mockLookupState (m : MockSystem) (o i : String) : Option (Option ℚ) :=
  (m.states.find? (fun e => decide (e.1 = (o, i)))).map Prod.snd

/-- Writing a command value into a claimed command handle. -/
def mockSetCommand (m : MockSystem) (o i : String) (v : ℚ) : MockSystem :=
  { m with
    commands := m.commands.map (fun e => if e.1 = (o, i) then (e.1, some v) else e) }

/-- Modelled from the spec: the mock system write - commands are pushed
to the simulated hardware and no state handle changes
(generic_system_functional_test asserts states unchanged after write). -/
def mockWrite (m : MockSystem) : MockSystem := m

/-- Value a state handle receives on read: the custom offset interface
reads the position command plus the offset; the plain position state
reads the position command, plus the offset only when no custom
interface is configured; every other state mirrors the command of the
same key; states without a matching command keep their value. -/
def mockReadValue (m : MockSystem) (key : InterfaceKey) (old : Option ℚ) : Option ℚ :=
  if m.customIface = some key.2 then
    match mockLookupCommand m key.1 "position" with
    | some w => w.map (fun q => q + m.offset)
    | none => old
  else if key.2 = "position" ∧ m.customIface = none then
    match mockLookupCommand m key.1 "position" with
    | some w => w.map (fun q => q + m.offset)
    | none => old
  else
    match mockLookupCommand m key.1 key.2 with
    | some w => w
    | none => old

/-- Modelled from the spec: the mock system read - state handles mirror
the last written commands, with the following offset applied where
configured. -/
def mockRead (m : MockSystem) : MockSystem :=
  { m with states := m.states.map (fun e => (e.1, mockReadValue m e.1 e.2)) }

/-- Standard 2-dof mock system of generic_system_functional_test:
position and velocity command and state interfaces for joint1 and
joint2, position states starting at 3.45 and 2.78, no offset. -/
def mockStd : MockSystem :=
  configureMockSystem 0 none
    [{ owner := "joint1", iface := "position", initialValue := none },
     { owner := "joint1", iface := "velocity", initialValue := none },
     { owner := "joint2", iface := "position", initialValue := none },
     { owner := "joint2", iface := "velocity", initialValue := none }]
    [{ owner := "joint1", iface := "position", initialValue := some (345 / 100) },
     { owner := "joint1", iface := "velocity", initialValue := none },
     { owner := "joint2", iface := "position", initialValue := some (278 / 100) },
     { owner := "joint2", iface := "velocity", initialValue := none }]
    []

/-- mockStd with the commands of the functional test written: j1/pos
0.11, j1/vel 0.22, j2/pos 0.33, j2/vel 0.44. -/
def mockStdSet : MockSystem :=
  mockSetCommand (mockSetCommand (mockSetCommand (mockSetCommand mockStd
    "joint1" "position" (11 / 100))
    "joint1" "velocity" (22 / 100))
    "joint2" "position" (33 / 100))
    "joint2" "velocity" (44 / 100)

/-- 2-dof mock system of
generic_system_2dof_functionality_with_offset_custom_interface:
following offset -3 delivered on the custom state interface
actual_position. -/
def mockOffsetCustom : MockSystem :=
  configureMockSystem (-3) (some "actual_position")
    [{ owner := "joint1", iface := "position", initialValue := none },
     { owner := "joint1", iface := "velocity", initialValue := none },
     { owner := "joint2", iface := "position", initialValue := none },
     { owner := "joint2", iface := "velocity", initialValue := none }]
    [{ owner := "joint1", iface := "position", initialValue := some (345 / 100) },
     { owner := "joint1", iface := "velocity", initialValue := none },
     { owner := "joint2", iface := "position", initialValue := some (278 / 100) },
     { owner := "joint2", iface := "velocity", initialValue := none }]
    [{ owner := "joint1", iface := "actual_position", initialValue := none },
     { owner := "joint2", iface := "actual_position", initialValue := none }]

/-- mockOffsetCustom with the commands of the offset test written. -/
def mockOffsetSet : MockSystem :=
  mockSetCommand (mockSetCommand (mockSetCommand (mockSetCommand mockOffsetCustom
    "joint1" "position" (11 / 100))
    "joint1" "velocity" (22 / 100))
    "joint2" "position" (33 / 100))
    "joint2" "velocity" (44 / 100)

/-- Mock system with gpio interfaces, as in
valid_urdf_ros2_control_system_robot_with_gpio: the gpio state handles
declare no initial values. -/
def mockGpio : MockSystem :=
  configureMockSystem 0 none
    [{ owner := "flange_analog_IOs", iface := "analog_output1", initialValue := none },
     { owner := "flange_vacuum", iface := "vacuum", initialValue := none }]
    []
    [{ owner := "flange_analog_IOs", iface := "analog_output1", initialValue := none },
     { owner := "flange_vacuum", iface := "vacuum", initialValue := none }]

/-- Descriptions of end-to-end scenario 1: joint1 with a position state
initialized to 1.57, a velocity state without initial value and a
position command without initial value. -/
def mockScenario1 : MockSystem :=
  configureMockSystem 0 none
    [{ owner := "joint1", iface := "position", initialValue := none }]
    [{ owner := "joint1", iface := "position", initialValue := some (157 / 100) },
     { owner := "joint1", iface := "velocity", initialValue := none }]
    []

/-- Clamp into a closed interval: used by the saturation joint
limiter. -/
def limitClamp (lo hi x : ℚ) : ℚ := min hi (max lo x)

/-- Modelled from the spec: per-joint limiter state (the joint_limits
package is not in the source tree): position bounds, velocity bound and
the previously enforced command, absent before the first enforcement. -/
structure JointLimiterState where
  minPos : ℚ
  maxPos : ℚ
  maxVel : ℚ
  prevCmd : Option ℚ

/-- Modelled from the spec: position-command saturation of
enforce_command_limits - the command is clamped into the position bounds
intersected with one velocity-limit step around the reference, which is
the previously enforced command, or the measured position on the first
enforcement (check_limit_enforcement in test_resource_manager.cpp). -/
def enforcePositionLimit (st : JointLimiterState) (measuredPos cmd dt : ℚ) :
    ℚ × JointLimiterState :=
  let ref := st.prevCmd.getD measuredPos
  let lo := max st.minPos (ref - st.maxVel * dt)
  let hi := min st.maxPos (ref + st.maxVel * dt)
  let out := limitClamp lo hi cmd
  (out, { st with prevCmd := some out })

/-- Modelled from the spec: velocity-command saturation of
enforce_command_limits - the command is clamped into the symmetric
velocity bounds. -/
def enforceVelocityLimit (st : JointLimiterState) (cmd : ℚ) : ℚ :=
  limitClamp (-st.maxVel) st.maxVel cmd

/-- Repeated position enforcement with a fixed measured position,
command and period. -/
def iterEnforce (st : JointLimiterState) (measuredPos cmd dt : ℚ) :
    Nat → JointLimiterState
  | 0 => st
  | n + 1 => (enforcePositionLimit (iterEnforce st measuredPos cmd dt n) measuredPos cmd dt).2

/-- Joint limiter of the minimal-robot tests: velocity limit 0.2 and
position bounds of roughly plus and minus pi, before the first
enforcement. -/
def testJointLimiter : JointLimiterState :=
  { minPos := -(314159 / 100000), maxPos := 314159 / 100000,
    maxVel := 1 / 5, prevCmd := none }

/-- Cycle status of trigger_read and trigger_write
(HardwareComponentCycleStatus): whether the trigger was accepted, the
reported return code and the execution time when one is known. -/
structure HardwareComponentCycleStatus where
  successful : Bool
  result : ReturnType
  executionTime : Option Nat

/-- Published state of the async worker of an is_async component: the
most recently stored read return code and execution time (nanoseconds),
and whether the previous read-write cycle is still in progress.  The
async handler itself (realtime_tools) is modelled from the spec, section
4.4: a trigger is accepted exactly when no cycle is in flight. -/
structure AsyncState where
  readReturnInfo : ReturnType
  readExecutionTime : Nat
  busy : Bool

/-- ActuatorInterface::trigger_read from actuator_interface.hpp lines
426-461: the status result starts at ERROR; for an async component it is
first replaced by the last published read return code and the published
execution time is attached when positive; then the async callback is
triggered, and when the trigger is rejected (previous cycle still in
progress) successful is false and the result is overwritten with OK.
For a synchronous component read runs in place. -/
def trigger_read (isAsync : Bool) (asyncSt : AsyncState) (syncReadResult : ReturnType)
    (syncExecTime : Nat) : HardwareComponentCycleStatus :=
  if isAsync then
    let published := asyncSt.readReturnInfo
    let execTime :=
      if asyncSt.readExecutionTime > 0 then some asyncSt.readExecutionTime else none
    let accepted := !asyncSt.busy
    if accepted = false then
      { successful := false, result := ReturnType.ok, executionTime := execTime }
    else
      { successful := true, result := published, executionTime := execTime }
  else
    { successful := true, result := syncReadResult, executionTime := some syncExecTime }

/-- Effect of one trigger on the exported state handles: when the
trigger is rejected the worker keeps running the previous cycle and no
new update is applied by this trigger, so the handles keep their last
published values; when accepted the submitted cycle eventually applies
the worker update. -/
def asyncTriggerEffect (busy : Bool)
    (workerUpdate : List (InterfaceKey × ℚ) → List (InterfaceKey × ℚ))
    (handles : List (InterfaceKey × ℚ)) : List (InterfaceKey × ℚ) :=
  if busy then handles else workerUpdate handles

theorem isAvailableState_ne_finalized {s : LifecycleState}
    (h : isAvailableState s = true) : s ≠ LifecycleState.finalized := by
  cases s <;> simp_all [isAvailableState]

theorem updateLifecycle_name (n : String) (t : LifecycleState) (c : Component) :
    (updateLifecycle n t c).name = c.name := by
  unfold updateLifecycle
  split
  · split <;> rfl
  · rfl

theorem updateLifecycle_commandKeys (n : String) (t : LifecycleState) (c : Component) :
    (updateLifecycle n t c).commandKeys = c.commandKeys := by
  unfold updateLifecycle
  split
  · split <;> rfl
  · rfl

theorem updateLifecycle_stateKeys (n : String) (t : LifecycleState) (c : Component) :
    (updateLifecycle n t c).stateKeys = c.stateKeys := by
  unfold updateLifecycle
  split
  · split <;> rfl
  · rfl

theorem cycleUpdate_name (isRead : Bool) (errored : List Component) (c : Component) :
    (cycleUpdate isRead errored c).name = c.name := by
  unfold cycleUpdate Component.applyOnError
  split
  · rfl
  · split <;> rfl

theorem cycleUpdate_commandKeys (isRead : Bool) (errored : List Component) (c : Component) :
    (cycleUpdate isRead errored c).commandKeys = c.commandKeys := by
  unfold cycleUpdate Component.applyOnError
  split
  · rfl
  · split <;> rfl

theorem cycleUpdate_stateKeys (isRead : Bool) (errored : List Component) (c : Component) :
    (cycleUpdate isRead errored c).stateKeys = c.stateKeys := by
  unfold cycleUpdate Component.applyOnError
  split
  · rfl
  · split <;> rfl

theorem cmdOwner_map (rm : ResourceManager) (f : Component → Component)
    (hf : ∀ c, (f c).commandKeys = c.commandKeys) (key : InterfaceKey) :
    cmdOwner { rm with components := rm.components.map f } key =
      (cmdOwner rm key).map f := by
  unfold cmdOwner
  rw [List.find?_map]
  have hp : ((fun c => decide (key ∈ c.commandKeys)) ∘ f) =
      (fun c => decide (key ∈ c.commandKeys)) := by
    funext c
    simp [Function.comp, hf]
  rw [hp]

theorem stOwner_map (rm : ResourceManager) (f : Component → Component)
    (hf : ∀ c, (f c).stateKeys = c.stateKeys) (key : InterfaceKey) :
    stOwner { rm with components := rm.components.map f } key =
      (stOwner rm key).map f := by
  unfold stOwner
  rw [List.find?_map]
  have hp : ((fun c => decide (key ∈ c.stateKeys)) ∘ f) =
      (fun c => decide (key ∈ c.stateKeys)) := by
    funext c
    simp [Function.comp, hf]
  rw [hp]

theorem componentState_map (rm : ResourceManager) (f : Component → Component)
    (hf : ∀ c, (f c).name = c.name) (n : String) :
    componentState { rm with components := rm.components.map f } n =
      ((rm.components.find? (fun c => decide (c.name = n))).map f).map
        Component.lifecycleState := by
  unfold componentState
  rw [List.find?_map]
  have hp : ((fun c => decide (c.name = n)) ∘ f) =
      (fun c => decide (c.name = n)) := by
    funext c
    simp [Function.comp, hf]
  rw [hp]

theorem isEmpty_false_of_mem {α : Type} {l : List α} {a : α} (h : a ∈ l) :
    l.isEmpty = false := by
  cases l
  · cases h
  · rfl

/-- C1 counterexample: joint1/position is a movement-class command
interface, yet after its owning actuator is deactivated from ACTIVE to
INACTIVE command_interface_is_available still returns true - matching
the assertions of resource_availability_and_claiming_in_lifecycle
(test_resource_manager.cpp lines 1133-1168) and refuting the claimed
extra availability rule for movement command interfaces. -/
theorem C1_counterexample :
    is_movement_interface ("joint1", "position") = true ∧
    componentState rmMinimalActive "TestActuator" = some LifecycleState.active ∧
    componentState (set_component_state rmMinimalActive "TestActuator"
        LifecycleState.inactive) "TestActuator" = some LifecycleState.inactive ∧
    command_interface_is_available (set_component_state rmMinimalActive "TestActuator"
        LifecycleState.inactive) ("joint1", "position") = true ∧
    ¬ command_interface_is_available (set_component_state rmMinimalActive "TestActuator"
        LifecycleState.inactive) ("joint1", "position") = false := by
  refine ⟨rfl, rfl, rfl, rfl, ?_⟩
  decide

/-- C1 (amended): a registered command interface handle is available iff
its owning component is INACTIVE or ACTIVE, with no extra rule for
movement-class interfaces (that restriction is an unimplemented todo in
actuator_interface.hpp): a command interface of an ACTIVE component is
available, stays available - movement class included - after the
component is deactivated to INACTIVE, and becomes unavailable when the
component is driven to UNCONFIGURED or FINALIZED. -/
theorem C1_availability_iff_inactive_or_active (rm : ResourceManager)
    (key : InterfaceKey) (c : Component) (hfind : cmdOwner rm key = some c)
    (hact : c.lifecycleState = LifecycleState.active) :
    command_interface_is_available rm key = true ∧
    command_interface_is_available
      (set_component_state rm c.name LifecycleState.inactive) key = true ∧
    command_interface_is_available
      (set_component_state rm c.name LifecycleState.unconfigured) key = false ∧
    command_interface_is_available
      (set_component_state rm c.name LifecycleState.finalized) key = false := by
  have hmain : ∀ t : LifecycleState,
      command_interface_is_available (set_component_state rm c.name t) key =
        isAvailableState t := by
    intro t
    unfold set_component_state command_interface_is_available
    rw [cmdOwner_map rm (updateLifecycle c.name t) (updateLifecycle_commandKeys c.name t) key,
      hfind]
    simp [updateLifecycle, hact]
  refine ⟨?_, ?_, ?_, ?_⟩
  · unfold command_interface_is_available
    rw [hfind]
    show isAvailableState c.lifecycleState = true
    rw [hact]
    rfl
  · rw [hmain]
    rfl
  · rw [hmain]
    rfl
  · rw [hmain]
    rfl

/-- C1 witness: the amended availability rule evaluated on the
minimal-robot manager with the ACTIVE test actuator and its movement
command interface joint1/position. -/
theorem C1_availability_iff_inactive_or_active_witness :
    command_interface_is_available rmMinimalActive ("joint1", "position") = true ∧
    command_interface_is_available
      (set_component_state rmMinimalActive "TestActuator" LifecycleState.inactive)
      ("joint1", "position") = true ∧
    command_interface_is_available
      (set_component_state rmMinimalActive "TestActuator" LifecycleState.unconfigured)
      ("joint1", "position") = false ∧
    command_interface_is_available
      (set_component_state rmMinimalActive "TestActuator" LifecycleState.finalized)
      ("joint1", "position") = false :=
  C1_availability_iff_inactive_or_active rmMinimalActive ("joint1", "position")
    testActuator rfl rfl

theorem sameFailureGroup_self (c : Component) : sameFailureGroup c c = true := by
  simp [sameFailureGroup]

theorem inFailedSet_of_mem {errored : List Component} {c a : Component}
    (ha : a ∈ errored) (hsg : sameFailureGroup a c = true)
    (hnf : c.lifecycleState ≠ LifecycleState.finalized) :
    c.inFailedSet errored = true := by
  simp only [Component.inFailedSet, Bool.and_eq_true, Bool.not_eq_true', decide_eq_false_iff_not,
    List.any_eq_true]
  exact ⟨by simp [hnf], a, ha, hsg⟩

theorem eligible_ne_finalized {c : Component} {isRead : Bool}
    (hel : (if isRead then readEligible c else writeEligible c) = true) :
    c.lifecycleState ≠ LifecycleState.finalized := by
  cases isRead
  · simp only [if_neg Bool.false_ne_true, writeEligible, decide_eq_true_eq] at hel
    rw [hel]
    intro h
    exact LifecycleState.noConfusion h
  · simp only [if_pos rfl, readEligible] at hel
    exact isAvailableState_ne_finalized hel

theorem applyOnError_unavailable (c : Component) :
    isAvailableState (Component.applyOnError c).lifecycleState = false := by
  simp only [Component.applyOnError]
  split <;> rfl

/-- C2 (amended): for every component whose read or write returns Error
during a ResourceManager cycle, the cycle result is Error, the component
appears in failed_hardware_names, on_error is invoked on it, and the
component transitions to UNCONFIGURED when its on_error succeeds (after
which it can be reconfigured and reactivated) and to FINALIZED when
on_error does not succeed - for the dummy test driver on_error succeeds
only on its first invocation, so the first error recovers and the second
finalizes; a driver whose on_error keeps succeeding (the ResourceManager
test hardware) recovers to UNCONFIGURED on every error.  Once FINALIZED,
no lifecycle transition changes the state. -/
theorem C2_cycle_error_handling (rm : ResourceManager) (c : Component) (isRead : Bool)
    (hc : c ∈ rm.components) (he : c.isErrored isRead = true) :
    (runCycle rm isRead).result = ReturnType.error ∧
    c.name ∈ (runCycle rm isRead).failedNames ∧
    c.name ∈ (runCycle rm isRead).onErrorInvoked ∧
    (∃ c2 ∈ (runCycle rm isRead).rmAfter.components,
      c2.name = c.name ∧
      c2.lifecycleState =
        (if c.driver.onError c.errorCount = CallbackReturn.success then
          LifecycleState.unconfigured
        else LifecycleState.finalized)) ∧
    (∀ (n : String) (t : LifecycleState) (d : Component),
      d.lifecycleState = LifecycleState.finalized →
      (updateLifecycle n t d).lifecycleState = LifecycleState.finalized) ∧
    (∀ d : Component, d.lifecycleState = LifecycleState.unconfigured →
      (updateLifecycle d.name LifecycleState.active d).lifecycleState =
        LifecycleState.active) := by
  have hel : (if isRead then readEligible c else writeEligible c) = true :=
    ((Bool.and_eq_true _ _).mp he).1
  have hnf : c.lifecycleState ≠ LifecycleState.finalized := eligible_ne_finalized hel
  have hmemErr : c ∈ erroredList rm isRead := List.mem_filter.mpr ⟨hc, he⟩
  have hin : c.inFailedSet (erroredList rm isRead) = true :=
    inFailedSet_of_mem hmemErr (sameFailureGroup_self c) hnf
  have hmemFailed : c ∈ failedList rm isRead := List.mem_filter.mpr ⟨hc, hin⟩
  have hnameFailed : c.name ∈ (failedList rm isRead).map Component.name :=
    List.mem_map_of_mem Component.name hmemFailed
  refine ⟨?_, ?_, ?_, ?_, ?_, ?_⟩
  · show (if (erroredList rm isRead).isEmpty then _ else ReturnType.error) = _
    rw [isEmpty_false_of_mem hmemErr]
    rfl
  · exact List.mem_append_left _ hnameFailed
  · exact hnameFailed
  · refine ⟨cycleUpdate isRead (erroredList rm isRead) c,
      List.mem_map_of_mem _ hc, ?_, ?_⟩
    · rw [cycleUpdate_name]
    · simp only [cycleUpdate, hin, if_pos, Component.applyOnError]
  · intro n t d hfin
    simp [updateLifecycle, hfin]
  · intro d hd
    simp [updateLifecycle, hd]

/-- C2 counterexample: the minimal-robot actuator whose on_error always
succeeds (as the ResourceManager test hardware does - the tests
re-activate it after every failure) errors on read twice, with a
reactivation in between, and after the second error it is UNCONFIGURED
again, not FINALIZED as the claim predicts for a second occurrence. -/
theorem C2_counterexample :
    (rmRead rmReadFailure).result = ReturnType.error ∧
    componentState (rmRead rmReadFailure).rmAfter "TestActuator" =
      some LifecycleState.unconfigured ∧
    (rmRead (set_component_state (rmRead rmReadFailure).rmAfter "TestActuator"
        LifecycleState.active)).result = ReturnType.error ∧
    componentState (rmRead (set_component_state (rmRead rmReadFailure).rmAfter
        "TestActuator" LifecycleState.active)).rmAfter "TestActuator" =
      some LifecycleState.unconfigured ∧
    ¬ componentState (rmRead (set_component_state (rmRead rmReadFailure).rmAfter
        "TestActuator" LifecycleState.active)).rmAfter "TestActuator" =
      some LifecycleState.finalized := by
  refine ⟨rfl, rfl, rfl, rfl, ?_⟩
  decide

/-- C2 witness: the error-handling theorem evaluated on the dummy
actuator manager, whose driver errors on read. -/
theorem C2_cycle_error_handling_witness :
    (rmRead rmDummyActuator).result = ReturnType.error ∧
    "TestActuator" ∈ (rmRead rmDummyActuator).failedNames ∧
    "TestActuator" ∈ (rmRead rmDummyActuator).onErrorInvoked := by
  have h := C2_cycle_error_handling rmDummyActuator
    { testActuator with driver := dummyRecoverOnceDriver } true
    (List.mem_cons_self _ _) rfl
  exact ⟨h.1, h.2.1, h.2.2.1⟩

/-- C3: group failure propagation - when the only component erroring in
a read cycle belongs to group G, every non-FINALIZED component of group
G (the errored one included) is added to failed_hardware_names and
driven through on_error out of the available states, so all of its
interfaces become unavailable; every component not coupled to the
errored one - different group or no group - is left completely
unchanged, with the availability of all of its interfaces preserved. -/
theorem C3_group_failure_propagation (rm : ResourceManager) (c : Component)
    (honly : erroredList rm true = [c]) :
    (rmRead rm).result = ReturnType.error ∧
    (∀ b ∈ rm.components, b.lifecycleState ≠ LifecycleState.finalized →
      sameFailureGroup c b = true →
      b.name ∈ (rmRead rm).failedNames ∧
      (∃ b2 ∈ (rmRead rm).rmAfter.components, b2.name = b.name ∧
        isAvailableState b2.lifecycleState = false) ∧
      (∀ key, cmdOwner rm key = some b →
        command_interface_is_available (rmRead rm).rmAfter key = false) ∧
      (∀ key, stOwner rm key = some b →
        state_interface_is_available (rmRead rm).rmAfter key = false)) ∧
    (∀ b ∈ rm.components, sameFailureGroup c b = false →
      cycleUpdate true (erroredList rm true) b = b ∧
      b ∈ (rmRead rm).rmAfter.components ∧
      (∀ key, cmdOwner rm key = some b →
        command_interface_is_available (rmRead rm).rmAfter key =
          command_interface_is_available rm key) ∧
      (∀ key, stOwner rm key = some b →
        state_interface_is_available (rmRead rm).rmAfter key =
          state_interface_is_available rm key)) := by
  have hmemErr : c ∈ erroredList rm true := by
    rw [honly]
    exact List.mem_cons_self _ _
  have hcmdAfter : ∀ key, cmdOwner (rmRead rm).rmAfter key =
      (cmdOwner rm key).map (cycleUpdate true (erroredList rm true)) := by
    intro key
    exact cmdOwner_map rm _ (cycleUpdate_commandKeys true _) key
  have hstAfter : ∀ key, stOwner (rmRead rm).rmAfter key =
      (stOwner rm key).map (cycleUpdate true (erroredList rm true)) := by
    intro key
    exact stOwner_map rm _ (cycleUpdate_stateKeys true _) key
  refine ⟨?_, ?_, ?_⟩
  · show (if (erroredList rm true).isEmpty then _ else ReturnType.error) = _
    rw [isEmpty_false_of_mem hmemErr]
    rfl
  · intro b hb hbnf hsg
    have hin : b.inFailedSet (erroredList rm true) = true :=
      inFailedSet_of_mem hmemErr hsg hbnf
    have hupd : cycleUpdate true (erroredList rm true) b = Component.applyOnError b := by
      simp [cycleUpdate, hin]
    refine ⟨?_, ?_, ?_, ?_⟩
    · exact List.mem_append_left _
        (List.mem_map_of_mem _ (List.mem_filter.mpr ⟨hb, hin⟩))
    · refine ⟨cycleUpdate true (erroredList rm true) b,
        List.mem_map_of_mem _ hb, cycleUpdate_name true _ b, ?_⟩
      rw [hupd]
      exact applyOnError_unavailable b
    · intro key hkey
      show (match cmdOwner (rmRead rm).rmAfter key with
        | some d => isAvailableState d.lifecycleState
        | none => false) = false
      rw [hcmdAfter key, hkey]
      show isAvailableState (cycleUpdate true (erroredList rm true) b).lifecycleState = false
      rw [hupd]
      exact applyOnError_unavailable b
    · intro key hkey
      show (match stOwner (rmRead rm).rmAfter key with
        | some d => isAvailableState d.lifecycleState
        | none => false) = false
      rw [hstAfter key, hkey]
      show isAvailableState (cycleUpdate true (erroredList rm true) b).lifecycleState = false
      rw [hupd]
      exact applyOnError_unavailable b
  · intro b hb hsgf
    have hin : b.inFailedSet (erroredList rm true) = false := by
      rw [honly]
      simp [Component.inFailedSet, hsgf]
    have hupd : cycleUpdate true (erroredList rm true) b = b := by
      simp [cycleUpdate, hin, Component.isDeactivateRequested]
    refine ⟨hupd, ?_, ?_, ?_⟩
    · have := List.mem_map_of_mem (cycleUpdate true (erroredList rm true)) hb
      rw [hupd] at this
      exact this
    · intro key hkey
      show (match cmdOwner (rmRead rm).rmAfter key with
        | some d => isAvailableState d.lifecycleState
        | none => false) = _
      rw [hcmdAfter key, hkey]
      show isAvailableState (cycleUpdate true (erroredList rm true) b).lifecycleState = _
      rw [hupd]
      unfold command_interface_is_available
      rw [hkey]
    · intro key hkey
      show (match stOwner (rmRead rm).rmAfter key with
        | some d => isAvailableState d.lifecycleState
        | none => false) = _
      rw [hstAfter key, hkey]
      show isAvailableState (cycleUpdate true (erroredList rm true) b).lifecycleState = _
      rw [hupd]
      unfold state_interface_is_available
      rw [hkey]

/-- C3 witness: the group-failure theorem evaluated on the two mock
2-dof scenarios - in the same-group manager the second component fails
with the first and its interfaces become unavailable, in the
different-group manager the second component is untouched and its
interfaces stay available. -/
theorem C3_group_failure_propagation_witness :
    (rmRead rmSameGroup).result = ReturnType.error ∧
    "MockHardwareSystem2" ∈ (rmRead rmSameGroup).failedNames ∧
    command_interface_is_available (rmRead rmSameGroup).rmAfter
      ("joint2", "position") = false ∧
    state_interface_is_available (rmRead rmSameGroup).rmAfter
      ("joint2", "velocity") = false ∧
    command_interface_is_available (rmRead rmDiffGroup).rmAfter
      ("joint2", "position") = true ∧
    state_interface_is_available (rmRead rmDiffGroup).rmAfter
      ("joint2", "velocity") = true := by
  have hsame := C3_group_failure_propagation rmSameGroup
    (groupComponent "MockHardwareSystem1" (some "Hardware Group") "joint1" readFailDriver)
    rfl
  have hmate := hsame.2.1
    (groupComponent "MockHardwareSystem2" (some "Hardware Group") "joint2" okDriver)
    (List.mem_cons_of_mem _ (List.mem_cons_self _ _)) (by decide) rfl
  have hdiff := C3_group_failure_propagation rmDiffGroup
    (groupComponent "MockHardwareSystem1" (some "Hardware Group 1") "joint1" readFailDriver)
    rfl
  have hiso := hdiff.2.2
    (groupComponent "MockHardwareSystem2" (some "Hardware Group 2") "joint2" okDriver)
    (List.mem_cons_of_mem _ (List.mem_cons_self _ _)) rfl
  refine ⟨hsame.1, hmate.1, hmate.2.2.1 _ rfl, hmate.2.2.2 _ rfl, ?_, ?_⟩
  · rw [hiso.2.2.1 ("joint2", "position") rfl]
    rfl
  · rw [hiso.2.2.2 ("joint2", "velocity") rfl]
    rfl

/-- C4 (amended): when a component write returns Deactivate (and no
component errors), the ResourceManager write result is DEACTIVATE - not
an error - the component transitions from ACTIVE to INACTIVE while
staying loaded with all its interface keys, its name is reported in the
failed list, its command and state interfaces REMAIN available (INACTIVE
keeps every handle available, as check_write_deactivate asserts with
check_if_interface_available(true, true) - the claim that command
availability is dropped does not hold), every other component is left in
place, and the component can be re-activated. -/
theorem C4_write_deactivate (rm : ResourceManager) (c : Component)
    (hc : c ∈ rm.components)
    (hact : c.lifecycleState = LifecycleState.active)
    (hdeact : c.driver.writeResult = ReturnType.deactivate)
    (hnoerr : ∀ d ∈ rm.components, d.isErrored false = false) :
    (rmWrite rm).result = ReturnType.deactivate ∧
    (rmWrite rm).result ≠ ReturnType.error ∧
    c.name ∈ (rmWrite rm).failedNames ∧
    (∃ c2 ∈ (rmWrite rm).rmAfter.components, c2.name = c.name ∧
      c2.lifecycleState = LifecycleState.inactive ∧
      c2.commandKeys = c.commandKeys ∧ c2.stateKeys = c.stateKeys) ∧
    (∀ key, cmdOwner rm key = some c →
      command_interface_is_available (rmWrite rm).rmAfter key = true) ∧
    (∀ key, stOwner rm key = some c →
      state_interface_is_available (rmWrite rm).rmAfter key = true) ∧
    (∀ b ∈ rm.components, b.isDeactivateRequested false = false →
      b ∈ (rmWrite rm).rmAfter.components) ∧
    (∀ d : Component, d.lifecycleState = LifecycleState.inactive →
      (updateLifecycle d.name LifecycleState.active d).lifecycleState =
        LifecycleState.active) := by
  have herr : erroredList rm false = [] := by
    unfold erroredList
    rw [List.filter_eq_nil_iff]
    intro a ha
    simp [hnoerr a ha]
  have hdr : c.isDeactivateRequested false = true := by
    simp [Component.isDeactivateRequested, writeEligible, Component.cycleReturn, hact, hdeact]
  have hinf : ∀ d : Component, d.inFailedSet (erroredList rm false) = false := by
    intro d
    rw [herr]
    simp [Component.inFailedSet]
  have hmemDeact : c ∈ deactList rm false := by
    refine List.mem_filter.mpr ⟨hc, ?_⟩
    rw [hdr, hinf c]
    rfl
  have hupd : cycleUpdate false (erroredList rm false) c =
      { c with lifecycleState := LifecycleState.inactive } := by
    simp [cycleUpdate, hinf c, hdr]
  have hres : (rmWrite rm).result = ReturnType.deactivate := by
    show (if (erroredList rm false).isEmpty then _ else _) = _
    rw [herr]
    show (if (deactList rm false).isEmpty then ReturnType.ok else ReturnType.deactivate) = _
    rw [isEmpty_false_of_mem hmemDeact]
    rfl
  refine ⟨hres, ?_, ?_, ?_, ?_, ?_, ?_, ?_⟩
  · rw [hres]
    intro hcontra
    exact ReturnType.noConfusion hcontra
  · exact List.mem_append_right _ (List.mem_map_of_mem _ hmemDeact)
  · refine ⟨cycleUpdate false (erroredList rm false) c,
      List.mem_map_of_mem _ hc, cycleUpdate_name false _ c, ?_, ?_, ?_⟩
    · rw [hupd]
    · rw [hupd]
    · rw [hupd]
  · intro key hkey
    have hafter : cmdOwner (rmWrite rm).rmAfter key =
        (cmdOwner rm key).map (cycleUpdate false (erroredList rm false)) :=
      cmdOwner_map rm _ (cycleUpdate_commandKeys false _) key
    show (match cmdOwner (rmWrite rm).rmAfter key with
      | some d => isAvailableState d.lifecycleState
      | none => false) = true
    rw [hafter, hkey]
    show isAvailableState (cycleUpdate false (erroredList rm false) c).lifecycleState = true
    rw [hupd]
    rfl
  · intro key hkey
    have hafter : stOwner (rmWrite rm).rmAfter key =
        (stOwner rm key).map (cycleUpdate false (erroredList rm false)) :=
      stOwner_map rm _ (cycleUpdate_stateKeys false _) key
    show (match stOwner (rmWrite rm).rmAfter key with
      | some d => isAvailableState d.lifecycleState
      | none => false) = true
    rw [hafter, hkey]
    show isAvailableState (cycleUpdate false (erroredList rm false) c).lifecycleState = true
    rw [hupd]
    rfl
  · intro b hb hbdr
    have hbupd : cycleUpdate false (erroredList rm false) b = b := by
      simp [cycleUpdate, hinf b, hbdr]
    have := List.mem_map_of_mem (cycleUpdate false (erroredList rm false)) hb
    rw [hbupd] at this
    exact this
  · intro d hd
    simp [updateLifecycle, hd]

/-- C4 counterexample: after the actuator write requests Deactivate the
component is INACTIVE, yet its movement command interface
joint1/position is still available - matching
check_if_interface_available(true, true) in check_write_deactivate and
refuting the claimed loss of command availability. -/
theorem C4_counterexample :
    (rmWrite rmWriteDeactivate).result = ReturnType.deactivate ∧
    componentState (rmWrite rmWriteDeactivate).rmAfter "TestActuator" =
      some LifecycleState.inactive ∧
    command_interface_is_available (rmWrite rmWriteDeactivate).rmAfter
      ("joint1", "position") = true ∧
    ¬ command_interface_is_available (rmWrite rmWriteDeactivate).rmAfter
      ("joint1", "position") = false := by
  refine ⟨rfl, rfl, rfl, ?_⟩
  decide

/-- C4 witness: the deactivate theorem evaluated on the minimal-robot
manager whose actuator write requests Deactivate. -/
theorem C4_write_deactivate_witness :
    (rmWrite rmWriteDeactivate).result = ReturnType.deactivate ∧
    "TestActuator" ∈ (rmWrite rmWriteDeactivate).failedNames ∧
    command_interface_is_available (rmWrite rmWriteDeactivate).rmAfter
      ("joint1", "max_velocity") = true := by
  have h := C4_write_deactivate rmWriteDeactivate
    { testActuator with driver := writeDeactivateDriver }
    (List.mem_cons_self _ _) rfl rfl ?hnoerr
  case hnoerr =>
    intro d hd
    rcases List.mem_cons.mp hd with rfl | hd2
    · rfl
    rcases List.mem_cons.mp hd2 with rfl | hd3
    · rfl
    cases hd3
  exact ⟨h.1, h.2.2.1, h.2.2.2.2.1 ("joint1", "max_velocity") rfl⟩

/-- C6: a command interface key admits at most one claim at a time -
claiming fails when the key is missing, unavailable or already claimed
(leaving availability untouched), a successful claim marks the key
claimed and blocks further claims, releasing the lend restores the
manager so the key reports unclaimed and can immediately be claimed
again, and state interfaces are lent without limit whenever
available. -/
theorem C6_claim_exclusivity (rm : ResourceManager) (key : InterfaceKey) :
    (command_interface_exists rm key = false → claim_command_interface rm key = none) ∧
    (command_interface_is_available rm key = false →
      claim_command_interface rm key = none) ∧
    (command_interface_is_claimed rm key = true →
      claim_command_interface rm key = none) ∧
    (∀ rm2 : ResourceManager, claim_command_interface rm key = some rm2 →
      command_interface_is_claimed rm2 key = true ∧
      claim_command_interface rm2 key = none ∧
      (∀ k2, command_interface_is_available rm2 k2 =
        command_interface_is_available rm k2) ∧
      release_command_interface rm2 key = rm ∧
      command_interface_is_claimed (release_command_interface rm2 key) key = false ∧
      claim_command_interface (release_command_interface rm2 key) key = some rm2) ∧
    (state_interface_is_available rm key = true →
      claim_state_interface rm key = some ()) := by
  refine ⟨?_, ?_, ?_, ?_, ?_⟩
  · intro h
    unfold claim_command_interface
    simp [h]
  · intro h
    unfold claim_command_interface
    simp [h]
  · intro h
    unfold claim_command_interface
    simp [h]
  · intro rm2 hsome
    unfold claim_command_interface at hsome
    by_cases hcond : (command_interface_exists rm key &&
        command_interface_is_available rm key &&
        !command_interface_is_claimed rm key) = true
    · rw [if_pos hcond] at hsome
      cases Option.some.inj hsome
      have hclaimedFalse : command_interface_is_claimed rm key = false := by
        have h2 := (Bool.and_eq_true _ _).mp hcond
        simpa using h2.2
      have hrel : release_command_interface { rm with claimed := key :: rm.claimed } key
          = rm := by
        show ({ rm with claimed := (key :: rm.claimed).erase key } : ResourceManager) = rm
        rw [List.erase_cons_head]
      refine ⟨?_, ?_, ?_, hrel, ?_, ?_⟩
      · simp [command_interface_is_claimed]
      · unfold claim_command_interface
        simp [command_interface_is_claimed]
      · intro k2
        rfl
      · rw [hrel]
        exact hclaimedFalse
      · rw [hrel]
        unfold claim_command_interface
        rw [if_pos hcond]
    · rw [if_neg hcond] at hsome
      exact Option.noConfusion hsome
  · intro h
    unfold claim_state_interface
    simp [h]

/-- C6 witness: the claiming rules evaluated on the minimal-robot
manager at joint1/position - the claim succeeds, the claimed key blocks
a second claim, and releasing restores the original manager. -/
theorem C6_claim_exclusivity_witness :
    claim_command_interface rmMinimalActive ("joint1", "position") =
      some { rmMinimalActive with claimed := [("joint1", "position")] } ∧
    command_interface_is_claimed
      { rmMinimalActive with claimed := [("joint1", "position")] }
      ("joint1", "position") = true ∧
    claim_command_interface
      { rmMinimalActive with claimed := [("joint1", "position")] }
      ("joint1", "position") = none ∧
    release_command_interface
      { rmMinimalActive with claimed := [("joint1", "position")] }
      ("joint1", "position") = rmMinimalActive ∧
    claim_state_interface rmMinimalActive ("joint1", "velocity") = some () := by
  have h := C6_claim_exclusivity rmMinimalActive ("joint1", "position")
  have hsome : claim_command_interface rmMinimalActive ("joint1", "position") =
      some { rmMinimalActive with claimed := [("joint1", "position")] } := rfl
  have h4 := h.2.2.2.1 _ hsome
  exact ⟨hsome, h4.1, h4.2.1, h4.2.2.2.1,
    (C6_claim_exclusivity rmMinimalActive ("joint1", "velocity")).2.2.2.2 rfl⟩

/-- C7: when load_and_initialize_components fails - unknown plugin,
duplicate component names, init error or an export mismatch all make the
configuration list invalid - nothing is registered for that call: the
manager is returned untouched, and a fresh manager stays empty with no
component of any kind and no registered interface key. -/
theorem C7_failed_load_registers_nothing (rm0 : ResourceManager)
    (cfgs : List ComponentConfig) (h : configsValid cfgs = false) :
    load_and_initialize_components rm0 cfgs = (false, rm0) ∧
    (load_and_initialize_components empty_resource_manager cfgs).2.components = [] ∧
    are_components_initialized
      (load_and_initialize_components empty_resource_manager cfgs).2 = false ∧
    (∀ key : InterfaceKey,
      state_interface_exists
        (load_and_initialize_components empty_resource_manager cfgs).2 key = false ∧
      command_interface_exists
        (load_and_initialize_components empty_resource_manager cfgs).2 key = false) ∧
    (∀ k : ComponentKind,
      components_size_of_kind
        (load_and_initialize_components empty_resource_manager cfgs).2 k = 0) := by
  have hload : ∀ rm : ResourceManager,
      load_and_initialize_components rm cfgs = (false, rm) := by
    intro rm
    unfold load_and_initialize_components
    simp [h]
  refine ⟨hload rm0, ?_, ?_, ?_, ?_⟩
  · rw [hload empty_resource_manager]
    rfl
  · rw [hload empty_resource_manager]
    rfl
  · intro key
    rw [hload empty_resource_manager]
    exact ⟨rfl, rfl⟩
  · intro k
    rw [hload empty_resource_manager]
    rfl

/-- C7 witness: loading two components that share the name TestActuator
fails validation and registers nothing. -/
theorem C7_failed_load_registers_nothing_witness :
    configsValid duplicatedConfigs = false ∧
    load_and_initialize_components empty_resource_manager duplicatedConfigs =
      (false, empty_resource_manager) :=
  ⟨rfl,
    (C7_failed_load_registers_nothing empty_resource_manager duplicatedConfigs rfl).1⟩

theorem mockLookupState_read (m : MockSystem) (o i : String) (old : Option ℚ)
    (h : mockLookupState m o i = some old) :
    mockLookupState (mockRead m) o i = some (mockReadValue m (o, i) old) := by
  unfold mockLookupState at h ⊢
  show ((m.states.map (fun e => (e.1, mockReadValue m e.1 e.2))).find?
      (fun e => decide (e.1 = (o, i)))).map Prod.snd = _
  rw [List.find?_map]
  have hp : ((fun e : InterfaceKey × Option ℚ => decide (e.1 = (o, i))) ∘
      (fun e : InterfaceKey × Option ℚ => (e.1, mockReadValue m e.1 e.2))) =
      (fun e : InterfaceKey × Option ℚ => decide (e.1 = (o, i))) := by
    funext e
    rfl
  rw [hp]
  rcases hfind : m.states.find? (fun e => decide (e.1 = (o, i))) with _ | e0
  · rw [hfind] at h
    exact Option.noConfusion h
  · rw [hfind] at h
    have hkeyb := List.find?_some hfind
    have hkey : e0.1 = (o, i) := of_decide_eq_true hkeyb
    have hval : e0.2 = old := Option.some.inj h
    rw [hfind]
    simp only [Option.map_some']
    rw [hkey, hval]

/-- C8: with the mock generic-system driver, writing commands or calling
write alone never changes any state handle, and one write followed by
one read makes every state handle mirror the last written command: the
configured custom state interface reads command plus
position_state_following_offset, the plain position state reads command
plus offset only when no custom interface is configured, and every other
state interface reads the command of the same key unchanged. -/
theorem C8_mirror_loop (m : MockSystem) (o i : String) (old : Option ℚ)
    (hstate : mockLookupState m o i = some old) :
    (∀ (o2 i2 : String) (v : ℚ), (mockSetCommand m o2 i2 v).states = m.states) ∧
    (mockWrite m).states = m.states ∧
    (m.customIface = some i →
      ∀ w, mockLookupCommand m o "position" = some w →
        mockLookupState (mockRead (mockWrite m)) o i =
          some (w.map (fun q => q + m.offset))) ∧
    (i = "position" → m.customIface = none →
      ∀ w, mockLookupCommand m o "position" = some w →
        mockLookupState (mockRead (mockWrite m)) o i =
          some (w.map (fun q => q + m.offset))) ∧
    (m.customIface ≠ some i → ¬(i = "position" ∧ m.customIface = none) →
      ∀ w, mockLookupCommand m o i = some w →
        mockLookupState (mockRead (mockWrite m)) o i = some w) := by
  have hread := mockLookupState_read m o i old hstate
  refine ⟨fun o2 i2 v => rfl, rfl, ?_, ?_, ?_⟩
  · intro hci w hcmd
    show mockLookupState (mockRead m) o i = _
    rw [hread]
    show some (mockReadValue m (o, i) old) = _
    unfold mockReadValue
    rw [if_pos (show m.customIface = some (o, i).2 from hci)]
    show some (match mockLookupCommand m o "position" with
      | some w2 => w2.map (fun q => q + m.offset)
      | none => old) = _
    rw [hcmd]
  · intro hi hci w hcmd
    show mockLookupState (mockRead m) o i = _
    rw [hread]
    have hne : ¬ m.customIface = some (o, i).2 := by
      rw [hci]
      exact fun hcontra => Option.noConfusion hcontra
    show some (mockReadValue m (o, i) old) = _
    unfold mockReadValue
    rw [if_neg hne,
      if_pos (show (o, i).2 = "position" ∧ m.customIface = none from ⟨hi, hci⟩)]
    show some (match mockLookupCommand m o "position" with
      | some w2 => w2.map (fun q => q + m.offset)
      | none => old) = _
    rw [hcmd]
  · intro hne hnp w hcmd
    show mockLookupState (mockRead m) o i = _
    rw [hread]
    show some (mockReadValue m (o, i) old) = _
    unfold mockReadValue
    rw [if_neg (show ¬ m.customIface = some (o, i).2 from hne),
      if_neg (show ¬ ((o, i).2 = "position" ∧ m.customIface = none) from hnp)]
    show some (match mockLookupCommand m o i with
      | some w2 => w2
      | none => old) = _
    rw [hcmd]

/-- C8 witness: the mirror loop evaluated on the standard 2-dof mock
with commands 0.11/0.22/0.33/0.44 and on the offset -3 custom-interface
mock - actual_position reads 0.11 - 3 = -2.89 while the plain position
state reads 0.11. -/
theorem C8_mirror_loop_witness :
    mockLookupState (mockRead (mockWrite mockStdSet)) "joint1" "position" =
      some (some (11 / 100)) ∧
    mockLookupState (mockRead (mockWrite mockStdSet)) "joint2" "velocity" =
      some (some (44 / 100)) ∧
    mockLookupState (mockRead (mockWrite mockOffsetSet)) "joint1" "actual_position" =
      some (some (-289 / 100)) ∧
    mockLookupState (mockRead (mockWrite mockOffsetSet)) "joint1" "position" =
      some (some (11 / 100)) := by
  have h1 := (C8_mirror_loop mockStdSet "joint1" "position" (some (345 / 100))
    rfl).2.2.2.1 rfl rfl (some (11 / 100)) rfl
  have h2 := (C8_mirror_loop mockStdSet "joint2" "velocity" (some 0)
    rfl).2.2.2.2 (by decide) (by decide) (some (44 / 100)) rfl
  have h3 := (C8_mirror_loop mockOffsetSet "joint1" "actual_position" none
    rfl).2.2.1 rfl (some (11 / 100)) rfl
  have h4 := (C8_mirror_loop mockOffsetSet "joint1" "position" (some (345 / 100))
    rfl).2.2.2.2 (by decide) (by decide) (some (11 / 100)) rfl
  refine ⟨?_, ?_, ?_, ?_⟩
  · rw [h1]
    show some (Option.map (fun q => q + (0 : ℚ)) (some (11 / 100))) =
      some (some (11 / 100))
    simp only [Option.map_some']
    norm_num
  · exact h2
  · rw [h3]
    show some (Option.map (fun q => q + (-3 : ℚ)) (some (11 / 100))) =
      some (some (-289 / 100))
    simp only [Option.map_some']
    norm_num
  · exact h4

/-- C9 (amended): after configure, every command handle of the mock
system reads its declared initial value when one is present and NaN
otherwise; joint state handles read the declared initial value when
present and 0.0 otherwise; sensor and gpio state handles read the
declared initial value when present and NaN otherwise. -/
theorem C9_initial_handle_values (offset : ℚ) (ci : Option String)
    (cmds js os : List IfaceDescr) (o i : String) :
    (∀ d, cmds.find? (fun e => decide ((e.owner, e.iface) = (o, i))) = some d →
      mockLookupCommand (configureMockSystem offset ci cmds js os) o i =
        some d.initialValue) ∧
    (∀ d, js.find? (fun e => decide ((e.owner, e.iface) = (o, i))) = some d →
      mockLookupState (configureMockSystem offset ci cmds js os) o i =
        some (some (d.initialValue.getD 0))) ∧
    (js.find? (fun e => decide ((e.owner, e.iface) = (o, i))) = none →
      ∀ d, os.find? (fun e => decide ((e.owner, e.iface) = (o, i))) = some d →
        mockLookupState (configureMockSystem offset ci cmds js os) o i =
          some d.initialValue) := by
  have hcmdFind :
      (cmds.map (fun d => ((d.owner, d.iface), d.initialValue))).find?
        (fun e => decide (e.1 = (o, i))) =
      (cmds.find? (fun e => decide ((e.owner, e.iface) = (o, i)))).map
        (fun d => ((d.owner, d.iface), d.initialValue)) := by
    rw [List.find?_map]
    rfl
  have hjsFind :
      (js.map (fun d => ((d.owner, d.iface), some (d.initialValue.getD 0)))).find?
        (fun e => decide (e.1 = (o, i))) =
      (js.find? (fun e => decide ((e.owner, e.iface) = (o, i)))).map
        (fun d => ((d.owner, d.iface), some (d.initialValue.getD 0))) := by
    rw [List.find?_map]
    rfl
  have hosFind :
      (os.map (fun d => ((d.owner, d.iface), d.initialValue))).find?
        (fun e => decide (e.1 = (o, i))) =
      (os.find? (fun e => decide ((e.owner, e.iface) = (o, i)))).map
        (fun d => ((d.owner, d.iface), d.initialValue)) := by
    rw [List.find?_map]
    rfl
  refine ⟨?_, ?_, ?_⟩
  · intro d hd
    unfold mockLookupCommand configureMockSystem
    rw [hcmdFind, hd]
    rfl
  · intro d hd
    unfold mockLookupState configureMockSystem
    rw [List.find?_append, hjsFind, hd]
    rfl
  · intro hnone d hd
    unfold mockLookupState configureMockSystem
    rw [List.find?_append, hjsFind, hnone, hosFind, hd]
    rfl

/-- C9 counterexample: the gpio state handle flange_vacuum/vacuum has no
declared initial value and after configure it reads NaN, not 0.0 as the
claim states for every numeric state handle
(valid_urdf_ros2_control_system_robot_with_gpio asserts isnan on it). -/
theorem C9_counterexample :
    mockLookupState mockGpio "flange_vacuum" "vacuum" = some none ∧
    ¬ mockLookupState mockGpio "flange_vacuum" "vacuum" = some (some 0) := by
  refine ⟨rfl, ?_⟩
  decide

/-- C9 witness: the initial-value rules evaluated on scenario 1 - the
joint1 position state declared at 1.57 reads 1.57, the undeclared
velocity state reads 0.0 and the position command reads NaN. -/
theorem C9_initial_handle_values_witness :
    mockLookupState mockScenario1 "joint1" "position" = some (some (157 / 100)) ∧
    mockLookupState mockScenario1 "joint1" "velocity" = some (some 0) ∧
    mockLookupCommand mockScenario1 "joint1" "position" = some none := by
  have h1 := (C9_initial_handle_values 0 none
    [{ owner := "joint1", iface := "position", initialValue := none }]
    [{ owner := "joint1", iface := "position", initialValue := some (157 / 100) },
     { owner := "joint1", iface := "velocity", initialValue := none }]
    [] "joint1" "position").2.1
    { owner := "joint1", iface := "position", initialValue := some (157 / 100) } rfl
  have h2 := (C9_initial_handle_values 0 none
    [{ owner := "joint1", iface := "position", initialValue := none }]
    [{ owner := "joint1", iface := "position", initialValue := some (157 / 100) },
     { owner := "joint1", iface := "velocity", initialValue := none }]
    [] "joint1" "velocity").2.1
    { owner := "joint1", iface := "velocity", initialValue := none } rfl
  have h3 := (C9_initial_handle_values 0 none
    [{ owner := "joint1", iface := "position", initialValue := none }]
    [{ owner := "joint1", iface := "position", initialValue := some (157 / 100) },
     { owner := "joint1", iface := "velocity", initialValue := none }]
    [] "joint1" "position").1
    { owner := "joint1", iface := "position", initialValue := none } rfl
  exact ⟨h1, h2, h3⟩

theorem enforce_step_saturated (st : JointLimiterState) (m cmd dt p : ℚ)
    (hp : st.prevCmd = some p) (ha : 0 ≤ st.maxVel * dt)
    (hmm : st.minPos ≤ st.maxPos) (hpmax : p ≤ st.maxPos) (hcmd : st.maxPos ≤ cmd) :
    (enforcePositionLimit st m cmd dt).1 = min st.maxPos (p + st.maxVel * dt) := by
  simp only [enforcePositionLimit, hp, Option.getD_some, limitClamp]
  have hlo1 : st.minPos ≤ cmd := le_trans hmm hcmd
  have hlo2 : p - st.maxVel * dt ≤ cmd := by
    have : p - st.maxVel * dt ≤ p := by linarith
    exact le_trans this (le_trans hpmax hcmd)
  rw [max_eq_right (max_le hlo1 hlo2)]
  exact min_eq_left (le_trans (min_le_left _ _) hcmd)

theorem min_add_step (M x a : ℚ) (ha : 0 ≤ a) :
    min M (min M x + a) = min M (x + a) := by
  rcases le_total x M with h | h
  · rw [min_eq_right h]
  · rw [min_eq_left h, min_eq_left (by linarith : M ≤ M + a),
      min_eq_left (by linarith : M ≤ x + a)]

theorem iterEnforce_maxPos (st : JointLimiterState) (m cmd dt : ℚ) :
    ∀ n : Nat, (iterEnforce st m cmd dt n).maxPos = st.maxPos := by
  intro n
  induction n with
  | zero => rfl
  | succ n ih =>
    show (enforcePositionLimit (iterEnforce st m cmd dt n) m cmd dt).2.maxPos = _
    exact ih

theorem iterEnforce_minPos (st : JointLimiterState) (m cmd dt : ℚ) :
    ∀ n : Nat, (iterEnforce st m cmd dt n).minPos = st.minPos := by
  intro n
  induction n with
  | zero => rfl
  | succ n ih =>
    show (enforcePositionLimit (iterEnforce st m cmd dt n) m cmd dt).2.minPos = _
    exact ih

theorem iterEnforce_maxVel (st : JointLimiterState) (m cmd dt : ℚ) :
    ∀ n : Nat, (iterEnforce st m cmd dt n).maxVel = st.maxVel := by
  intro n
  induction n with
  | zero => rfl
  | succ n ih =>
    show (enforcePositionLimit (iterEnforce st m cmd dt n) m cmd dt).2.maxVel = _
    exact ih

theorem iterEnforce_formula (st : JointLimiterState) (m cmd dt p : ℚ)
    (hp : st.prevCmd = some p) (ha : 0 ≤ st.maxVel * dt)
    (hmm : st.minPos ≤ st.maxPos) (hpmax : p ≤ st.maxPos) (hcmd : st.maxPos ≤ cmd) :
    ∀ n : Nat, (iterEnforce st m cmd dt n).prevCmd =
      some (min st.maxPos (p + (n : ℚ) * (st.maxVel * dt))) := by
  intro n
  induction n with
  | zero =>
    show st.prevCmd = _
    rw [hp]
    have hz : p + ((0 : Nat) : ℚ) * (st.maxVel * dt) = p := by
      push_cast
      ring_nf
    rw [hz, min_eq_right hpmax]
  | succ n ih =>
    have hMaxPos := iterEnforce_maxPos st m cmd dt n
    have hMinPos := iterEnforce_minPos st m cmd dt n
    have hMaxVel := iterEnforce_maxVel st m cmd dt n
    have hstep := enforce_step_saturated (iterEnforce st m cmd dt n) m cmd dt
      (min st.maxPos (p + (n : ℚ) * (st.maxVel * dt))) ih
      (by rw [hMaxVel]; exact ha)
      (by rw [hMinPos, hMaxPos]; exact hmm)
      (by rw [hMaxPos]; exact min_le_left _ _)
      (by rw [hMaxPos]; exact hcmd)
    show (enforcePositionLimit (iterEnforce st m cmd dt n) m cmd dt).2.prevCmd = _
    have hsnd : (enforcePositionLimit (iterEnforce st m cmd dt n) m cmd dt).2.prevCmd =
        some ((enforcePositionLimit (iterEnforce st m cmd dt n) m cmd dt).1) := rfl
    rw [hsnd, hstep, hMaxPos, hMaxVel,
      min_add_step st.maxPos (p + (n : ℚ) * (st.maxVel * dt)) (st.maxVel * dt) ha]
    congr 1
    push_cast
    ring_nf

/-- C5 (amended): for the test joint with velocity limit 0.2 and
position bounds of about plus and minus pi, with measured position 1.05
and period 0.01 s, the first enforcement rewrites a position command of
0.0 to 1.048 = measured minus one velocity-limit step (the claimed value
1.048 belongs to the downward command 0.0 of the test, not to the upward
command 10.0, which the saturation instead clamps to measured plus one
step, 1.052); under repeated enforcement with a command at or above the
position bound, the enforced command after n further steps equals the
minimum of the position bound and the start value plus n velocity-limit
steps, so it grows by at most one velocity-limit step per enforcement
and never exceeds the position bound; a velocity command of -20.0 is
clamped to -0.2. -/
theorem C5_limit_enforcement (st : JointLimiterState) (m cmd dt p : ℚ)
    (hp : st.prevCmd = some p) (ha : 0 ≤ st.maxVel * dt)
    (hmm : st.minPos ≤ st.maxPos) (hpmax : p ≤ st.maxPos) (hcmd : st.maxPos ≤ cmd) :
    (enforcePositionLimit testJointLimiter (105 / 100) 0 (1 / 100)).1 = 131 / 125 ∧
    enforceVelocityLimit testJointLimiter (-20) = -(1 / 5) ∧
    (∀ n : Nat, (iterEnforce st m cmd dt n).prevCmd =
      some (min st.maxPos (p + (n : ℚ) * (st.maxVel * dt)))) ∧
    (∀ (n : Nat) (x : ℚ), (iterEnforce st m cmd dt n).prevCmd = some x →
      x ≤ st.maxPos) ∧
    (∀ (n : Nat) (x y : ℚ), (iterEnforce st m cmd dt n).prevCmd = some x →
      (iterEnforce st m cmd dt (n + 1)).prevCmd = some y →
      y - x ≤ st.maxVel * dt) := by
  have hformula := iterEnforce_formula st m cmd dt p hp ha hmm hpmax hcmd
  refine ⟨?_, ?_, hformula, ?_, ?_⟩
  · simp only [enforcePositionLimit, testJointLimiter, Option.getD_none, limitClamp]
    norm_num [max_def, min_def]
  · simp only [enforceVelocityLimit, testJointLimiter, limitClamp]
    norm_num [max_def, min_def]
  · intro n x hx
    rw [hformula n] at hx
    rw [← Option.some.inj hx]
    exact min_le_left _ _
  · intro n x y hx hy
    rw [hformula n] at hx
    rw [hformula (n + 1)] at hy
    rw [← Option.some.inj hx, ← Option.some.inj hy]
    have hstep : min st.maxPos (p + ((n + 1 : Nat) : ℚ) * (st.maxVel * dt)) ≤
        min st.maxPos (p + (n : ℚ) * (st.maxVel * dt)) + st.maxVel * dt := by
      have harg : p + ((n + 1 : Nat) : ℚ) * (st.maxVel * dt) =
          (p + (n : ℚ) * (st.maxVel * dt)) + st.maxVel * dt := by
        push_cast
        ring
      rw [harg]
      rcases le_total (p + (n : ℚ) * (st.maxVel * dt)) st.maxPos with h | h
      · rw [min_eq_right h]
        exact min_le_right _ _
      · rw [min_eq_left h]
        have : st.maxPos ≤ st.maxPos + st.maxVel * dt := by linarith
        exact le_trans (min_le_left _ _) (by linarith)
    linarith [hstep]

/-- C5 counterexample: with measured position 1.05, command 10.0 and
period 0.01 s, the first enforcement clamps the command to 1.052 -
measured position PLUS one velocity-limit step - and not approximately
1.048 as the claim states (1.048 is obtained for the downward command
0.0 actually used by check_limit_enforcement). -/
theorem C5_counterexample :
    (enforcePositionLimit testJointLimiter (105 / 100) 10 (1 / 100)).1 = 263 / 250 ∧
    ¬ |(enforcePositionLimit testJointLimiter (105 / 100) 10 (1 / 100)).1 -
        131 / 125| ≤ 1 / 100000 := by
  have h : (enforcePositionLimit testJointLimiter (105 / 100) 10 (1 / 100)).1 =
      263 / 250 := by
    simp only [enforcePositionLimit, testJointLimiter, Option.getD_none, limitClamp]
    norm_num [max_def, min_def]
  refine ⟨h, ?_⟩
  rw [h]
  rw [show (263 : ℚ) / 250 - 131 / 125 = 1 / 250 by norm_num]
  rw [abs_of_nonneg (by norm_num)]
  norm_num

/-- C5 witness: the enforcement rules evaluated on the test limiter -
command 0.0 is clamped to 1.048, iterating from 1.048 with command 10.0
reaches exactly 1.05 after one step, and velocity command -20.0 is
clamped to -0.2. -/
theorem C5_limit_enforcement_witness :
    (enforcePositionLimit testJointLimiter (105 / 100) 0 (1 / 100)).1 = 131 / 125 ∧
    enforceVelocityLimit testJointLimiter (-20) = -(1 / 5) ∧
    (iterEnforce { testJointLimiter with prevCmd := some (131 / 125) }
      (105 / 100) 10 (1 / 100) 1).prevCmd = some (21 / 20) := by
  have h := C5_limit_enforcement
    { testJointLimiter with prevCmd := some (131 / 125) }
    (105 / 100) 10 (1 / 100) (131 / 125) rfl (by norm_num [testJointLimiter])
    (by norm_num [testJointLimiter]) (by norm_num [testJointLimiter])
    (by norm_num [testJointLimiter])
  refine ⟨h.1, h.2.1, ?_⟩
  rw [h.2.2.1 1]
  show some (min (314159 / 100000 : ℚ) (131 / 125 + (1 : ℚ) * (1 / 5 * (1 / 100)))) = _
  rw [show (131 / 125 : ℚ) + (1 : ℚ) * (1 / 5 * (1 / 100)) = 21 / 20 by norm_num]
  rw [min_eq_right (by norm_num)]

/-- C10: for an is_async component, a trigger_read issued while the
previous asynchronous read-write cycle is still in progress returns
successful = false and reports OK regardless of the return status most
recently published by the worker - an ERROR of the still-running or
previous cycle is never surfaced by a rejected trigger - and the state
handles keep their last published values since the rejected trigger
submits no new cycle. -/
theorem C10_rejected_trigger_reports_ok (asyncSt : AsyncState)
    (hbusy : asyncSt.busy = true) (syncReadResult : ReturnType) (syncExecTime : Nat) :
    (trigger_read true asyncSt syncReadResult syncExecTime).successful = false ∧
    (trigger_read true asyncSt syncReadResult syncExecTime).result = ReturnType.ok ∧
    (∀ r : ReturnType,
      (trigger_read true { asyncSt with readReturnInfo := r } syncReadResult
        syncExecTime).result = ReturnType.ok) ∧
    (∀ (workerUpdate : List (InterfaceKey × ℚ) → List (InterfaceKey × ℚ))
      (handles : List (InterfaceKey × ℚ)),
      asyncTriggerEffect asyncSt.busy workerUpdate handles = handles) := by
  refine ⟨?_, ?_, ?_, ?_⟩
  · simp [trigger_read, hbusy]
  · simp [trigger_read, hbusy]
  · intro r
    simp [trigger_read, hbusy]
  · intro workerUpdate handles
    rw [hbusy]
    simp [asyncTriggerEffect]

/-- C10 witness: a rejected trigger on a busy async worker that last
published ERROR still reports successful = false with result OK. -/
theorem C10_rejected_trigger_reports_ok_witness :
    (trigger_read true
      { readReturnInfo := ReturnType.error, readExecutionTime := 5, busy := true }
      ReturnType.ok 7).successful = false ∧
    (trigger_read true
      { readReturnInfo := ReturnType.error, readExecutionTime := 5, busy := true }
      ReturnType.ok 7).result = ReturnType.ok := by
  have h := C10_rejected_trigger_reports_ok
    { readReturnInfo := ReturnType.error, readExecutionTime := 5, busy := true }
    rfl ReturnType.ok 7
  exact ⟨h.1, h.2.1⟩

end Ros2Control
